import Mathlib

/-!
Shallow embedding of `src/crates/sindri_client/src/main.rs` (Sindri Engine
client): the graphics-context data model (`GpuOptions`, `Vertex`, `Gfx`),
the surface configurator (`Gfx.resize`, format selection, initial
configuration in `init_wgpu`), the frame renderer (`Gfx.render`), and the
event-dispatch handler from `main`'s event-loop closure.

Machine integers (`u32` sizes, counts) are modelled as `Nat` — the program
performs no wrapping arithmetic on them (only comparison with 0 and
`max(1)`).  Floating-point constants (vertex positions, clear color) are
stored and never computed with, so they are modelled as the exact decimal
rationals written in the source.  GPU-side effects (surface configuration,
render-pass recording, queue submission, presentation, process exit,
logging) are modelled as an explicit trace of `GpuCall`s; the outcome of
`surface.get_current_texture()` is an environment input
(`Option SurfaceError`, `none` = a frame was acquired), and
`window.inner_size()` at the time the `Lost` handler runs is likewise an
environment input to the event.
-/

namespace Sindri

/-- `struct GpuOptions { fallback: bool, low_power: bool }` (main.rs:10-14). -/
structure GpuOptions where
  fallback : Bool
  low_power : Bool
deriving DecidableEq, Repr

/-- `wgpu::PowerPreference`; the source uses `LowPower` and `HighPerformance`. -/
inductive PowerPreference
  | NonePref
  | LowPower
  | HighPerformance
deriving DecidableEq, Repr

/-- The fields of `wgpu::RequestAdapterOptions` the source fills in
(main.rs:125-133); the compatible surface is modelled by a handle id. -/
structure RequestAdapterOptions where
  power_preference : PowerPreference
  compatible_surface : Option Nat
  force_fallback_adapter : Bool
deriving DecidableEq, Repr

/-- The adapter request built in `init_wgpu` (main.rs:124-133):
power preference is `LowPower` iff `low_power` is set, otherwise
`HighPerformance`; the compatible surface is the surface just created;
force-fallback equals the `fallback` option. -/
def requestAdapterOptions (gpu_opts : GpuOptions) (surface : Nat) :
    RequestAdapterOptions :=
  { power_preference :=
      if gpu_opts.low_power then PowerPreference.LowPower
      else PowerPreference.HighPerformance
    compatible_surface := some surface
    force_fallback_adapter := gpu_opts.fallback }

/-- `wgpu::TextureFormat`, abstracted to the one observable the source
uses: `is_srgb()`.  Distinct formats are told apart by `id`. -/
structure TextureFormat where
  id : Nat
  srgb : Bool
deriving DecidableEq, Repr

/-- `TextureFormat::is_srgb()` as used in the format-selection closure
(main.rs:162). -/
def TextureFormat.is_srgb (f : TextureFormat) : Bool := f.srgb

/-- `wgpu::PresentMode`; the source uses `Fifo` (main.rs:170). -/
inductive PresentMode
  | AutoVsync
  | AutoNoVsync
  | Fifo
  | FifoRelaxed
  | Immediate
  | Mailbox
deriving DecidableEq, Repr

/-- `wgpu::CompositeAlphaMode`. -/
inductive CompositeAlphaMode
  | Auto
  | Opaque
  | PreMultiplied
  | PostMultiplied
  | Inherit
deriving DecidableEq, Repr

/-- Bit value of `wgpu::TextureUsages::RENDER_ATTACHMENT`. -/
def RENDER_ATTACHMENT : Nat := 16

/-- `wgpu::SurfaceConfiguration` with the fields the source sets
(main.rs:165-174). -/
structure SurfaceConfiguration where
  usage : Nat
  format : TextureFormat
  width : Nat
  height : Nat
  present_mode : PresentMode
  alpha_mode : CompositeAlphaMode
  view_formats : List TextureFormat
  desired_maximum_frame_latency : Nat
deriving DecidableEq, Repr

/-- `struct Vertex { pos: [f32; 2] }` (main.rs:33-37); the position is the
exact decimal value written in the source. -/
structure Vertex where
  pos : ℚ × ℚ
deriving DecidableEq, Repr

/-- The compiled pipeline, abstracted to its color-target format
(main.rs:213-217: the target format is `config.format`). -/
structure RenderPipeline where
  target_format : TextureFormat
deriving DecidableEq, Repr

/-- `struct Gfx` (main.rs:49-58): surface/device/queue handles, the stored
surface configuration, the pipeline, the vertex buffer and vertex count. -/
structure Gfx where
  surface : Nat
  device : Nat
  queue : Nat
  config : SurfaceConfiguration
  render_pipeline : RenderPipeline
  vertex_buffer : List Vertex
  vertex_count : Nat
deriving DecidableEq, Repr

/-- `wgpu::SurfaceError` — the four variants a `get_current_texture` call
can return. -/
inductive SurfaceError
  | Timeout
  | Outdated
  | Lost
  | OutOfMemory
deriving DecidableEq, Repr

/-- `wgpu::Color`, exact decimal components. -/
structure Color where
  r : ℚ
  g : ℚ
  b : ℚ
  a : ℚ
deriving DecidableEq, Repr

/-- Observable GPU/process effects, recorded as a trace. -/
inductive GpuCall
  | configure (cfg : SurfaceConfiguration)
  | beginRenderPass (clear : Color)
  | setPipeline
  | setVertexBuffer (slot : Nat)
  | draw (vertexStart vertexEnd instStart instEnd : Nat)
  | endRenderPass
  | submit
  | present
  | logError (e : SurfaceError)
  | exitProcess
deriving DecidableEq, Repr

/-- Is this trace entry a `surface.configure` call? -/
def GpuCall.isConfigure : GpuCall → Bool
  | .configure _ => true
  | _ => false

/-- Is this trace entry a draw call? -/
def GpuCall.isDraw : GpuCall → Bool
  | .draw _ _ _ _ => true
  | _ => false

/-- Does this trace entry emit frame output (draw, submit or present)? -/
def GpuCall.isFrameOutput : GpuCall → Bool
  | .draw _ _ _ _ => true
  | .submit => true
  | .present => true
  | _ => false

/-- `Gfx::resize` (main.rs:61-68): if either dimension is 0 return at once
(minimized); otherwise store the new width/height and reconfigure the
surface with the updated configuration.  The second component is the trace
of `surface.configure` calls the body performs. -/
def Gfx.resize (g : Gfx) (width height : Nat) : Gfx × List GpuCall :=
  if width = 0 ∨ height = 0 then
    (g, [])
  else
    let cfg := { g.config with width := width, height := height }
    ({ g with config := cfg }, [GpuCall.configure cfg])

/-- The clear color of the render pass (main.rs:89-94). -/
def clearColor : Color := { r := 0.08, g := 0.08, b := 0.09, a := 1 }

/-- `Gfx::render` (main.rs:70-111).  The acquisition outcome of
`surface.get_current_texture()` is an environment input: `some e` makes the
`?` operator return `Err(e)` before anything is recorded; `none` acquires a
frame, records one render pass (clear, pipeline, vertex buffer at slot 0,
one draw of `0..vertex_count` vertices and `0..1` instances), submits it
and presents it.  Returns the context, the trace and the `Result`. -/
def Gfx.render (g : Gfx) (acquire : Option SurfaceError) :
    Gfx × List GpuCall × Option SurfaceError :=
  match acquire with
  | some e => (g, [], some e)
  | none =>
    (g,
     [GpuCall.beginRenderPass clearColor,
      GpuCall.setPipeline,
      GpuCall.setVertexBuffer 0,
      GpuCall.draw 0 g.vertex_count 0 1,
      GpuCall.endRenderPass,
      GpuCall.submit,
      GpuCall.present],
     none)

/-- First sRGB format, else the first format (main.rs:157-163):
`formats.iter().copied().find(|f| f.is_srgb()).unwrap_or(formats[0])`.
The `formats[0]` index panics on an empty list; that panic is modelled as
`none`. -/
def selectSurfaceFormat (formats : List TextureFormat) : Option TextureFormat :=
  match formats.find? TextureFormat.is_srgb with
  | some f => some f
  | none => formats.head?

/-- The two capability lists of `wgpu::SurfaceCapabilities` the source
reads (main.rs:157, 171). -/
structure SurfaceCapabilities where
  formats : List TextureFormat
  alpha_modes : List CompositeAlphaMode
deriving DecidableEq, Repr

/-- The three vertices built in `init_wgpu` (main.rs:227-231). -/
def triangleVertices : List Vertex :=
  [{ pos := (0, 0.6) }, { pos := (-0.6, -0.6) }, { pos := (0.6, -0.6) }]

/-- The state-constructing tail of `init_wgpu` (main.rs:155-250): choose a
format from the capabilities, build the initial configuration (usage
RENDER_ATTACHMENT, window size floored to 1 in each dimension, Fifo
present mode, first supported alpha mode, no extra view formats, frame
latency 2), configure the surface once, build the pipeline targeting the
chosen format, upload the triangle vertex buffer and record its length.
The `formats[0]` and `alpha_modes[0]` index panics are modelled as `none`. -/
def init_wgpu (innerWidth innerHeight : Nat) (caps : SurfaceCapabilities) :
    Option (Gfx × List GpuCall) :=
  match selectSurfaceFormat caps.formats, caps.alpha_modes.head? with
  | some format, some alpha =>
    let config : SurfaceConfiguration :=
      { usage := RENDER_ATTACHMENT
        format := format
        width := max innerWidth 1
        height := max innerHeight 1
        present_mode := PresentMode.Fifo
        alpha_mode := alpha
        view_formats := []
        desired_maximum_frame_latency := 2 }
    some
      ({ surface := 0
         device := 0
         queue := 0
         config := config
         render_pipeline := { target_format := format }
         vertex_buffer := triangleVertices
         vertex_count := triangleVertices.length },
       [GpuCall.configure config])
  | _, _ => none

/-- One event as dispatched by `main`'s event-loop closure
(main.rs:272-289).  `RedrawRequested` carries the acquisition outcome the
driver will report and the width/height `window.inner_size()` returns when
the `Lost` handler queries it. -/
inductive LoopEvent
  | CloseRequested
  | Resized (width height : Nat)
  | RedrawRequested (acquire : Option SurfaceError) (innerWidth innerHeight : Nat)
  | AboutToWait
  | Other
deriving DecidableEq, Repr

/-- The loop-owned state: the graphics context and whether `elwt.exit()`
has been called. -/
structure LoopState where
  gfx : Gfx
  exited : Bool
deriving DecidableEq, Repr

/-- The body of `main`'s event-loop closure (main.rs:272-289).  Once
`elwt.exit()` has run the loop delivers no further events.
`CloseRequested` exits; `Resized` forwards to `Gfx::resize`;
`RedrawRequested` calls `Gfx::render` and then dispatches on the result:
`Ok` does nothing more, `Lost` re-applies `window.inner_size()` through
`Gfx::resize`, `OutOfMemory` exits, any other error is logged.
`AboutToWait` only requests a redraw (no GPU effect). -/
def handleEvent (s : LoopState) (e : LoopEvent) : LoopState × List GpuCall :=
  if s.exited then (s, [])
  else
    match e with
    | .CloseRequested => ({ s with exited := true }, [])
    | .Resized w h =>
      let r := s.gfx.resize w h
      ({ s with gfx := r.1 }, r.2)
    | .RedrawRequested acquire iw ih =>
      let r := s.gfx.render acquire
      match r.2.2 with
      | none => ({ s with gfx := r.1 }, r.2.1)
      | some SurfaceError.Lost =>
        let r2 := r.1.resize iw ih
        ({ s with gfx := r2.1 }, r.2.1 ++ r2.2)
      | some SurfaceError.OutOfMemory =>
        ({ s with gfx := r.1, exited := true }, r.2.1 ++ [GpuCall.exitProcess])
      | some err => ({ s with gfx := r.1 }, r.2.1 ++ [GpuCall.logError err])
    | .AboutToWait => (s, [])
    | .Other => (s, [])

/-- Run a sequence of dispatched events, concatenating the traces. -/
def runEvents (s : LoopState) (es : List LoopEvent) : LoopState × List GpuCall :=
  match es with
  | [] => (s, [])
  | e :: rest =>
    let r1 := handleEvent s e
    let r2 := runEvents r1.1 rest
    (r2.1, r1.2 ++ r2.2)

/-- The classification `main`'s match arms give each acquisition outcome
(main.rs:276-284): `Ok` succeeds, `Lost` is recoverable, `OutOfMemory` is
fatal, everything else is soft-logged. -/
inductive AcquireClass
  | success
  | recoverable
  | fatal
  | softLogged
deriving DecidableEq, Repr

/-- Read the class off the match arms of main.rs:276-284. -/
def acquireDisposition : Option SurfaceError → AcquireClass
  | none => AcquireClass.success
  | some SurfaceError.Lost => AcquireClass.recoverable
  | some SurfaceError.OutOfMemory => AcquireClass.fatal
  | some _ => AcquireClass.softLogged

/-- The stored surface size is at least 1×1. -/
def Gfx.sizeOk (g : Gfx) : Prop :=
  1 ≤ g.config.width ∧ 1 ≤ g.config.height

instance (g : Gfx) : Decidable g.sizeOk := by
  unfold Gfx.sizeOk; infer_instance

/-- Sample sRGB format for concrete runs. -/
def fmtSrgb : TextureFormat := { id := 0, srgb := true }

/-- Sample non-sRGB format for concrete runs. -/
def fmtLinear : TextureFormat := { id := 1, srgb := false }

/-- A concrete stored configuration of size 1024×768. -/
def cfg1024 : SurfaceConfiguration :=
  { usage := RENDER_ATTACHMENT
    format := fmtSrgb
    width := 1024
    height := 768
    present_mode := PresentMode.Fifo
    alpha_mode := CompositeAlphaMode.Auto
    view_formats := []
    desired_maximum_frame_latency := 2 }

/-- A concrete graphics context whose stored size is 1024×768. -/
def gfx1024 : Gfx :=
  { surface := 0
    device := 0
    queue := 0
    config := cfg1024
    render_pipeline := { target_format := fmtSrgb }
    vertex_buffer := triangleVertices
    vertex_count := 3 }

/-- A live loop state holding `gfx1024`. -/
def state1024 : LoopState := { gfx := gfx1024, exited := false }

/-- Sample capabilities: one sRGB format, one alpha mode. -/
def capsSample : SurfaceCapabilities :=
  { formats := [fmtSrgb], alpha_modes := [CompositeAlphaMode.Auto] }

/-- The configuration `init_wgpu` builds for an 800×600 window over
`capsSample`. -/
def cfg800 : SurfaceConfiguration :=
  { usage := RENDER_ATTACHMENT
    format := fmtSrgb
    width := 800
    height := 600
    present_mode := PresentMode.Fifo
    alpha_mode := CompositeAlphaMode.Auto
    view_formats := []
    desired_maximum_frame_latency := 2 }

/-- The graphics context `init_wgpu` builds for an 800×600 window over
`capsSample`. -/
def gfx800 : Gfx :=
  { surface := 0
    device := 0
    queue := 0
    config := cfg800
    render_pipeline := { target_format := fmtSrgb }
    vertex_buffer := triangleVertices
    vertex_count := 3 }

/-- A `Lost` acquisition on this tick is handled through the resize path
applied to the window's inner size: the new context is exactly the one
`Gfx::resize` produces, the trace is exactly the resize trace (so the
frame emits no draw/submit/present), and the loop keeps running. -/
def LostHandledByResize (s : LoopState) (iw ih : Nat) : Prop :=
  (handleEvent s (LoopEvent.RedrawRequested (some SurfaceError.Lost) iw ih)).1.gfx
      = (s.gfx.resize iw ih).1
    ∧ (handleEvent s (LoopEvent.RedrawRequested (some SurfaceError.Lost) iw ih)).2
        = (s.gfx.resize iw ih).2
    ∧ ((handleEvent s (LoopEvent.RedrawRequested (some SurfaceError.Lost) iw ih)).2).countP
        GpuCall.isFrameOutput = 0
    ∧ (handleEvent s (LoopEvent.RedrawRequested (some SurfaceError.Lost) iw ih)).1.exited
        = false

/-- An `Outdated` acquisition on this tick is only logged: the trace is a
single log entry, the context is untouched and the loop keeps running. -/
def OutdatedSoftLogged (s : LoopState) (iw ih : Nat) : Prop :=
  (handleEvent s (LoopEvent.RedrawRequested (some SurfaceError.Outdated) iw ih)).2
      = [GpuCall.logError SurfaceError.Outdated]
    ∧ (handleEvent s (LoopEvent.RedrawRequested (some SurfaceError.Outdated) iw ih)).1.gfx
        = s.gfx
    ∧ (handleEvent s (LoopEvent.RedrawRequested (some SurfaceError.Outdated) iw ih)).1.exited
        = false

/-- A `Lost` acquisition while `window.inner_size()` is (1024, 768)
produces exactly one `surface.configure` with width 1024 and height 768,
and zero draw calls on that tick. -/
def LostReconfigures1024 (s : LoopState) : Prop :=
  ∃ cfg,
    (handleEvent s (LoopEvent.RedrawRequested (some SurfaceError.Lost) 1024 768)).2
        = [GpuCall.configure cfg]
      ∧ cfg.width = 1024
      ∧ cfg.height = 768
      ∧ ((handleEvent s (LoopEvent.RedrawRequested (some SurfaceError.Lost) 1024 768)).2).countP
          GpuCall.isDraw = 0

/-- An `OutOfMemory` acquisition on this tick exits the process: the exit
flag is set, the trace is the exit signal alone (no draws), and no later
event produces any further GPU call or state change. -/
def OomFatal (s : LoopState) (iw ih : Nat) (es : List LoopEvent) : Prop :=
  (handleEvent s (LoopEvent.RedrawRequested (some SurfaceError.OutOfMemory) iw ih)).1.exited
      = true
    ∧ (handleEvent s (LoopEvent.RedrawRequested (some SurfaceError.OutOfMemory) iw ih)).2
        = [GpuCall.exitProcess]
    ∧ runEvents
        (handleEvent s (LoopEvent.RedrawRequested (some SurfaceError.OutOfMemory) iw ih)).1 es
      = ((handleEvent s (LoopEvent.RedrawRequested (some SurfaceError.OutOfMemory) iw ih)).1,
         [])

/-- An acquisition failing with `e` on this tick is soft-logged: the trace
is one log entry (so the frame is skipped), the context is untouched and
the loop keeps running. -/
def SoftLogged (s : LoopState) (e : SurfaceError) (iw ih : Nat) : Prop :=
  (handleEvent s (LoopEvent.RedrawRequested (some e) iw ih)).2 = [GpuCall.logError e]
    ∧ (handleEvent s (LoopEvent.RedrawRequested (some e) iw ih)).1.gfx = s.gfx
    ∧ (handleEvent s (LoopEvent.RedrawRequested (some e) iw ih)).1.exited = false

/-- The classification of acquisition outcomes is total and exclusive:
success exactly on `Ok`, recoverable exactly on `Lost`, fatal exactly on
`OutOfMemory`, soft-logged exactly on `Outdated` and `Timeout`. -/
def DispositionTotal : Prop :=
  ∀ o : Option SurfaceError,
    (acquireDisposition o = AcquireClass.success ↔ o = none)
      ∧ (acquireDisposition o = AcquireClass.recoverable ↔ o = some SurfaceError.Lost)
      ∧ (acquireDisposition o = AcquireClass.fatal ↔ o = some SurfaceError.OutOfMemory)
      ∧ (acquireDisposition o = AcquireClass.softLogged
          ↔ (o = some SurfaceError.Outdated ∨ o = some SurfaceError.Timeout))

/-- The vertex buffer holds exactly the three triangle vertices of
main.rs:227-231 and the stored vertex count is 3. -/
def TriangleOk (g : Gfx) : Prop :=
  g.vertex_buffer
      = [{ pos := (0, 0.6) }, { pos := (-0.6, -0.6) }, { pos := (0.6, -0.6) }]
    ∧ g.vertex_count = 3

/-- Helper: once `elwt.exit()` has run, the loop delivers nothing more. -/
theorem runEvents_exited (s : LoopState) (es : List LoopEvent)
    (hex : s.exited = true) : runEvents s es = (s, []) := by
  induction es with
  | nil => rfl
  | cons e rest ih =>
    have h1 : handleEvent s e = (s, []) := by simp [handleEvent, hex]
    simp [runEvents, h1, ih]

/-- Helper: a resize never touches the vertex buffer or the vertex count. -/
theorem resize_preserves_vertex_fields (g : Gfx) (w h : Nat) :
    (g.resize w h).1.vertex_buffer = g.vertex_buffer
      ∧ (g.resize w h).1.vertex_count = g.vertex_count := by
  unfold Gfx.resize
  by_cases hz : w = 0 ∨ h = 0
  · rw [if_pos hz]; exact ⟨rfl, rfl⟩
  · rw [if_neg hz]; exact ⟨rfl, rfl⟩

/-- Helper: no dispatched event touches the vertex buffer or count. -/
theorem handleEvent_preserves_vertex_fields (s : LoopState) (e : LoopEvent) :
    (handleEvent s e).1.gfx.vertex_buffer = s.gfx.vertex_buffer
      ∧ (handleEvent s e).1.gfx.vertex_count = s.gfx.vertex_count := by
  by_cases hex : s.exited = true
  · simp [handleEvent, hex]
  · cases e with
    | CloseRequested => simp [handleEvent, hex]
    | Resized w h =>
      have hr := resize_preserves_vertex_fields s.gfx w h
      simpa [handleEvent, hex] using hr
    | RedrawRequested acquire iw ih =>
      cases acquire with
      | none => simp [handleEvent, hex, Gfx.render]
      | some err =>
        cases err with
        | Lost =>
          have hr := resize_preserves_vertex_fields s.gfx iw ih
          simpa [handleEvent, hex, Gfx.render] using hr
        | OutOfMemory => simp [handleEvent, hex, Gfx.render]
        | Timeout => simp [handleEvent, hex, Gfx.render]
        | Outdated => simp [handleEvent, hex, Gfx.render]
    | AboutToWait => simp [handleEvent, hex]
    | Other => simp [handleEvent, hex]

/-- Helper: no run of dispatched events touches the vertex buffer or
count. -/
theorem runEvents_preserves_vertex_fields (es : List LoopEvent) (s : LoopState) :
    (runEvents s es).1.gfx.vertex_buffer = s.gfx.vertex_buffer
      ∧ (runEvents s es).1.gfx.vertex_count = s.gfx.vertex_count := by
  induction es generalizing s with
  | nil => exact ⟨rfl, rfl⟩
  | cons e rest ih =>
    have h1 := handleEvent_preserves_vertex_fields s e
    have h2 := ih (handleEvent s e).1
    simp only [runEvents]
    exact ⟨h2.1.trans h1.1, h2.2.trans h1.2⟩

/-- Helper: a resize keeps the stored size at least 1×1. -/
theorem resize_sizeOk (g : Gfx) (w h : Nat) (hg : g.sizeOk) :
    (g.resize w h).1.sizeOk := by
  unfold Gfx.resize
  by_cases hz : w = 0 ∨ h = 0
  · rw [if_pos hz]; exact hg
  · rw [if_neg hz]
    push_neg at hz
    exact ⟨by show 1 ≤ w; omega, by show 1 ≤ h; omega⟩

/-- Helper: no dispatched event shrinks the stored size below 1×1. -/
theorem handleEvent_sizeOk (s : LoopState) (e : LoopEvent) (hs : s.gfx.sizeOk) :
    (handleEvent s e).1.gfx.sizeOk := by
  by_cases hex : s.exited = true
  · simpa [handleEvent, hex] using hs
  · cases e with
    | CloseRequested => simpa [handleEvent, hex] using hs
    | Resized w h =>
      have hr := resize_sizeOk s.gfx w h hs
      simpa [handleEvent, hex] using hr
    | RedrawRequested acquire iw ih =>
      cases acquire with
      | none => simpa [handleEvent, hex, Gfx.render] using hs
      | some err =>
        cases err with
        | Lost =>
          have hr := resize_sizeOk s.gfx iw ih hs
          simpa [handleEvent, hex, Gfx.render] using hr
        | OutOfMemory => simpa [handleEvent, hex, Gfx.render] using hs
        | Timeout => simpa [handleEvent, hex, Gfx.render] using hs
        | Outdated => simpa [handleEvent, hex, Gfx.render] using hs
    | AboutToWait => simpa [handleEvent, hex] using hs
    | Other => simpa [handleEvent, hex] using hs

/-- Helper: no run of dispatched events shrinks the stored size below
1×1. -/
theorem runEvents_sizeOk (es : List LoopEvent) (s : LoopState) (hs : s.gfx.sizeOk) :
    (runEvents s es).1.gfx.sizeOk := by
  induction es generalizing s with
  | nil => exact hs
  | cons e rest ih =>
    simp only [runEvents]
    exact ih (handleEvent s e).1 (handleEvent_sizeOk s e hs)

/-- Helper: a successful `find?` for an sRGB format splits the list at the
first sRGB element. -/
theorem find_srgb_decomp (l : List TextureFormat) (f : TextureFormat)
    (hf : l.find? TextureFormat.is_srgb = some f) :
    f.is_srgb = true
      ∧ ∃ l1 l2, l = l1 ++ f :: l2 ∧ ∀ g ∈ l1, g.is_srgb = false := by
  induction l with
  | nil => simp [List.find?] at hf
  | cons a t ih =>
    by_cases ha : a.is_srgb = true
    · rw [List.find?_cons_of_pos _ ha] at hf
      obtain rfl : a = f := by injection hf
      exact ⟨ha, [], t, rfl, by intro g hg; cases hg⟩
    · rw [List.find?_cons_of_neg _ (by simpa using ha)] at hf
      obtain ⟨hf1, l1, l2, hdec, hall⟩ := ih hf
      refine ⟨hf1, a :: l1, l2, by rw [hdec]; rfl, ?_⟩
      intro g hg
      rcases List.mem_cons.mp hg with rfl | hg2
      · simpa using ha
      · exact hall g hg2

/-- C3: for every width w > 0 and height h > 0, after `Gfx::resize(w, h)`
the stored configuration's width equals w and its height equals h, and the
surface is reconfigured exactly once during that call (the call's trace is
a single `surface.configure`). -/
theorem resize_positive_sets_size_configures_once (g : Gfx) (w h : Nat)
    (hw : 0 < w) (hh : 0 < h) :
    (g.resize w h).1.config.width = w
      ∧ (g.resize w h).1.config.height = h
      ∧ (g.resize w h).2 = [GpuCall.configure (g.resize w h).1.config] := by
  have hc : ¬(w = 0 ∨ h = 0) := by omega
  unfold Gfx.resize
  rw [if_neg hc]
  exact ⟨rfl, rfl, rfl⟩

/-- C3 witness: the resize theorem applied at (640, 480) on a concrete
context. -/
theorem resize_positive_sets_size_configures_once_witness :
    0 < 640 ∧ 0 < 480
      ∧ ((gfx1024.resize 640 480).1.config.width = 640
        ∧ (gfx1024.resize 640 480).1.config.height = 480
        ∧ (gfx1024.resize 640 480).2
            = [GpuCall.configure (gfx1024.resize 640 480).1.config]) :=
  ⟨by decide, by decide,
    resize_positive_sets_size_configures_once gfx1024 640 480 (by decide) (by decide)⟩

/-- C4: a resize with width 0 or height 0 returns the context completely
unchanged (every field) and performs no `surface.configure`. -/
theorem resize_zero_is_noop (g : Gfx) (w h : Nat) (hz : w = 0 ∨ h = 0) :
    g.resize w h = (g, []) := by
  unfold Gfx.resize
  rw [if_pos hz]

/-- C4 witness: the zero-resize theorem applied at (0, 480) on a concrete
context. -/
theorem resize_zero_is_noop_witness :
    ((0 : Nat) = 0 ∨ (480 : Nat) = 0) ∧ gfx1024.resize 0 480 = (gfx1024, []) :=
  ⟨Or.inl rfl, resize_zero_is_noop gfx1024 0 480 (Or.inl rfl)⟩

/-- C7: for every `GpuOptions`, the adapter request asks for `LowPower`
when `low_power` is set and `HighPerformance` otherwise, and its
force-fallback flag equals the `fallback` option; in particular
(false, false) yields `HighPerformance` with force-fallback off, and any
options with `fallback = true` force the fallback adapter regardless of
`low_power`. -/
theorem adapter_request_matches_options (f lp : Bool) (sid : Nat) :
    (requestAdapterOptions ⟨f, lp⟩ sid).power_preference
        = (if lp then PowerPreference.LowPower else PowerPreference.HighPerformance)
      ∧ (requestAdapterOptions ⟨f, lp⟩ sid).force_fallback_adapter = f
      ∧ (requestAdapterOptions ⟨false, false⟩ sid).power_preference
          = PowerPreference.HighPerformance
      ∧ (requestAdapterOptions ⟨false, false⟩ sid).force_fallback_adapter = false
      ∧ (requestAdapterOptions ⟨true, lp⟩ sid).force_fallback_adapter = true := by
  cases lp <;> simp [requestAdapterOptions]

/-- C8 counterexample: on the empty capabilities list the selection fails
(the `unwrap_or(formats[0])` index panics, modelled as `none`), so the
claim's "for every list … it does not fail" is false at the concrete
input `[]`. -/
theorem format_selection_empty_fails : selectSurfaceFormat [] = none := rfl

/-- C8 (amended): for every nonempty list of surface format capabilities,
the selection succeeds and returns the first sRGB-encoded format of the
list, or the first format of the list when none is sRGB. -/
theorem format_selection_first_srgb_or_first (fmts : List TextureFormat)
    (hne : fmts ≠ []) :
    ∃ f, selectSurfaceFormat fmts = some f
      ∧ ((f.is_srgb = true
            ∧ ∃ l1 l2, fmts = l1 ++ f :: l2 ∧ ∀ g ∈ l1, g.is_srgb = false)
        ∨ ((∀ g ∈ fmts, g.is_srgb = false) ∧ fmts.head? = some f)) := by
  cases hfind : fmts.find? TextureFormat.is_srgb with
  | some f =>
    refine ⟨f, ?_, Or.inl (find_srgb_decomp fmts f hfind)⟩
    simp [selectSurfaceFormat, hfind]
  | none =>
    have hall : ∀ g ∈ fmts, g.is_srgb = false := by
      intro g hg
      have := List.find?_eq_none.mp hfind g hg
      simpa using this
    cases fmts with
    | nil => exact absurd rfl hne
    | cons a t =>
      refine ⟨a, ?_, Or.inr ⟨hall, rfl⟩⟩
      simp [selectSurfaceFormat, hfind]

/-- C8 witness: the amended selection theorem applied to the concrete
nonempty list [fmtLinear, fmtSrgb]. -/
theorem format_selection_first_srgb_or_first_witness :
    [fmtLinear, fmtSrgb] ≠ ([] : List TextureFormat)
      ∧ ∃ f, selectSurfaceFormat [fmtLinear, fmtSrgb] = some f
        ∧ ((f.is_srgb = true
              ∧ ∃ l1 l2, [fmtLinear, fmtSrgb] = l1 ++ f :: l2
                  ∧ ∀ g ∈ l1, g.is_srgb = false)
          ∨ ((∀ g ∈ [fmtLinear, fmtSrgb], g.is_srgb = false)
              ∧ [fmtLinear, fmtSrgb].head? = some f)) :=
  ⟨by decide, format_selection_first_srgb_or_first [fmtLinear, fmtSrgb] (by decide)⟩

/-- C10: a render call never mutates the graphics context, whatever the
acquisition outcome; and across the whole event handler, the context after
any event is either untouched or the result of a `Gfx::resize` call — only
resize mutates context state. -/
theorem render_never_mutates_context (g : Gfx) (o : Option SurfaceError)
    (s : LoopState) (e : LoopEvent) :
    (g.render o).1 = g
      ∧ ((handleEvent s e).1.gfx = s.gfx
        ∨ ∃ w h, (handleEvent s e).1.gfx = (s.gfx.resize w h).1) := by
  constructor
  · cases o <;> rfl
  · by_cases hex : s.exited = true
    · left; simp [handleEvent, hex]
    · cases e with
      | CloseRequested => left; simp [handleEvent, hex]
      | Resized w h => right; exact ⟨w, h, by simp [handleEvent, hex]⟩
      | RedrawRequested acquire iw ih =>
        cases acquire with
        | none => left; simp [handleEvent, hex, Gfx.render]
        | some err =>
          cases err with
          | Lost => right; exact ⟨iw, ih, by simp [handleEvent, hex, Gfx.render]⟩
          | OutOfMemory => left; simp [handleEvent, hex, Gfx.render]
          | Timeout => left; simp [handleEvent, hex, Gfx.render]
          | Outdated => left; simp [handleEvent, hex, Gfx.render]
      | AboutToWait => left; simp [handleEvent, hex]
      | Other => left; simp [handleEvent, hex]

/-- C1 counterexample: on a live concrete state, an `Outdated` acquisition
is merely logged — the tick's whole trace is one log entry and contains no
`surface.configure` — so the claim that Lost and Outdated are both
handled through the resize path (and neither merely logged) is false at
this input. -/
theorem outdated_only_logged_cex :
    (handleEvent state1024
        (LoopEvent.RedrawRequested (some SurfaceError.Outdated) 1024 768)).2
      = [GpuCall.logError SurfaceError.Outdated]
    ∧ ((handleEvent state1024
          (LoopEvent.RedrawRequested (some SurfaceError.Outdated) 1024 768)).2).countP
        GpuCall.isConfigure = 0 :=
  ⟨rfl, rfl⟩

/-- C1 (amended): a `Lost` acquisition is handled as recoverable — the
window's current width/height are re-applied through the resize path, the
frame emits no draw/submit/present, and the loop continues — while an
`Outdated` acquisition is not fatal either but is only logged and the
frame skipped, with no reconfiguration. -/
theorem lost_recoverable_outdated_soft (s : LoopState) (iw ih : Nat)
    (hex : s.exited = false) :
    LostHandledByResize s iw ih ∧ OutdatedSoftLogged s iw ih := by
  have hres : ((s.gfx.resize iw ih).2).countP GpuCall.isFrameOutput = 0 := by
    unfold Gfx.resize
    by_cases hz : iw = 0 ∨ ih = 0
    · rw [if_pos hz]; rfl
    · rw [if_neg hz]; rfl
  constructor
  · refine ⟨?_, ?_, ?_, ?_⟩
    · simp [handleEvent, hex, Gfx.render]
    · simp [handleEvent, hex, Gfx.render]
    · simpa [handleEvent, hex, Gfx.render] using hres
    · simp [handleEvent, hex, Gfx.render]
  · refine ⟨?_, ?_, ?_⟩ <;> simp [handleEvent, hex, Gfx.render]

/-- C1 witness: the amended theorem applied to a live concrete state with
window inner size (1024, 768). -/
theorem lost_recoverable_outdated_soft_witness :
    state1024.exited = false
      ∧ (LostHandledByResize state1024 1024 768
          ∧ OutdatedSoftLogged state1024 1024 768) :=
  ⟨rfl, lost_recoverable_outdated_soft state1024 1024 768 rfl⟩

/-- C2 counterexample: in a run whose stored surface size is (1024, 768)
throughout, a `Lost` acquisition while the window reports inner size
(0, 0) (minimized) performs zero reconfigurations — not exactly one with
(1024, 768) — because main.rs:279-280 re-applies `window.inner_size()`,
not the stored size.  (The stored size is still 1024×768 afterwards, and
zero draws are issued.) -/
theorem lost_stored_size_cex :
    gfx1024.config.width = 1024 ∧ gfx1024.config.height = 768
      ∧ (runEvents state1024
          [LoopEvent.Resized 0 0,
           LoopEvent.RedrawRequested (some SurfaceError.Lost) 0 0]).2.countP
          GpuCall.isConfigure = 0
      ∧ (runEvents state1024
          [LoopEvent.Resized 0 0,
           LoopEvent.RedrawRequested (some SurfaceError.Lost) 0 0]).2.countP
          GpuCall.isDraw = 0
      ∧ (runEvents state1024
          [LoopEvent.Resized 0 0,
           LoopEvent.RedrawRequested (some SurfaceError.Lost) 0 0]).1.gfx.config.width
          = 1024
      ∧ (runEvents state1024
          [LoopEvent.Resized 0 0,
           LoopEvent.RedrawRequested (some SurfaceError.Lost) 0 0]).1.gfx.config.height
          = 768 :=
  ⟨rfl, rfl, rfl, rfl, rfl, rfl⟩

/-- C2 (amended): for a render call that fails acquisition with `Lost`
while the window's current inner size is (1024, 768), exactly one surface
reconfiguration is performed and it uses width 1024 and height 768, and
zero draw calls are issued on that tick. -/
theorem lost_reconfigures_window_size (s : LoopState) (hex : s.exited = false) :
    LostReconfigures1024 s := by
  refine ⟨{ s.gfx.config with width := 1024, height := 768 }, ?_, rfl, rfl, ?_⟩
  · simp [handleEvent, hex, Gfx.render, Gfx.resize]
  · simp [handleEvent, hex, Gfx.render, Gfx.resize, GpuCall.isDraw]

/-- C2 witness: the amended theorem applied to a live concrete state whose
stored (and window) size is 1024×768. -/
theorem lost_reconfigures_window_size_witness :
    state1024.exited = false ∧ LostReconfigures1024 state1024 :=
  ⟨rfl, lost_reconfigures_window_size state1024 rfl⟩

/-- C5: an `OutOfMemory` acquisition triggers a process exit and no
further frames are processed; every failure kind other than Lost,
Outdated and OutOfMemory is logged, the frame skipped and the loop
continues; and the classification of acquisition outcomes into
{success, recoverable, fatal, soft-logged} is total and exclusive. -/
theorem acquire_classification_total (s : LoopState) (iw ih : Nat)
    (es : List LoopEvent) (hex : s.exited = false) :
    OomFatal s iw ih es
      ∧ (∀ e : SurfaceError, e ≠ SurfaceError.Lost → e ≠ SurfaceError.Outdated →
          e ≠ SurfaceError.OutOfMemory → SoftLogged s e iw ih)
      ∧ DispositionTotal := by
  refine ⟨⟨?_, ?_, ?_⟩, ?_, ?_⟩
  · simp [handleEvent, hex, Gfx.render]
  · simp [handleEvent, hex, Gfx.render]
  · apply runEvents_exited
    simp [handleEvent, hex, Gfx.render]
  · intro e h1 h2 h3
    cases e with
    | Timeout =>
      refine ⟨?_, ?_, ?_⟩ <;> simp [handleEvent, hex, Gfx.render]
    | Outdated => exact absurd rfl h2
    | Lost => exact absurd rfl h1
    | OutOfMemory => exact absurd rfl h3
  · intro o
    rcases o with _ | e
    · refine ⟨?_, ?_, ?_, ?_⟩ <;> simp [acquireDisposition]
    · cases e <;> refine ⟨?_, ?_, ?_, ?_⟩ <;> simp [acquireDisposition]

/-- C5 witness: the classification theorem applied to a live concrete
state, with an arbitrary concrete tail of events. -/
theorem acquire_classification_total_witness :
    state1024.exited = false
      ∧ (OomFatal state1024 1024 768 [LoopEvent.RedrawRequested none 1024 768]
          ∧ (∀ e : SurfaceError, e ≠ SurfaceError.Lost → e ≠ SurfaceError.Outdated →
              e ≠ SurfaceError.OutOfMemory → SoftLogged state1024 e 1024 768)
          ∧ DispositionTotal) :=
  ⟨rfl,
    acquire_classification_total state1024 1024 768
      [LoopEvent.RedrawRequested none 1024 768] rfl⟩

/-- C6: every successfully constructed context stores exactly the three
triangle vertices (0, 0.6), (-0.6, -0.6), (0.6, -0.6) with vertex count 3;
no sequence of dispatched events ever changes the vertex buffer or the
count; and a successful render issues exactly one draw call, covering
vertices 0..vertex_count with instances 0..1. -/
theorem triangle_immutable_one_draw (iw ih : Nat) (caps : SurfaceCapabilities)
    (g : Gfx) (tr : List GpuCall) (hinit : init_wgpu iw ih caps = some (g, tr))
    (s : LoopState) (es : List LoopEvent) (g2 : Gfx) :
    TriangleOk g
      ∧ (runEvents s es).1.gfx.vertex_buffer = s.gfx.vertex_buffer
      ∧ (runEvents s es).1.gfx.vertex_count = s.gfx.vertex_count
      ∧ ((g2.render none).2.1).countP GpuCall.isDraw = 1
      ∧ GpuCall.draw 0 g2.vertex_count 0 1 ∈ (g2.render none).2.1 := by
  have hrun := runEvents_preserves_vertex_fields es s
  have hT : TriangleOk g := by
    unfold init_wgpu at hinit
    cases hf : selectSurfaceFormat caps.formats with
    | none => rw [hf] at hinit; exact absurd hinit (by simp)
    | some format =>
      cases ha : caps.alpha_modes.head? with
      | none => rw [hf, ha] at hinit; exact absurd hinit (by simp)
      | some alpha =>
        rw [hf, ha] at hinit
        simp only [Option.some.injEq, Prod.mk.injEq] at hinit
        obtain ⟨hg, _⟩ := hinit
        rw [← hg]
        exact ⟨rfl, rfl⟩
  refine ⟨hT, hrun.1, hrun.2, ?_, ?_⟩
  · rfl
  · simp [Gfx.render]

/-- C6 witness: the theorem applied to a concrete successful construction
(800×600 window, one sRGB format) and a concrete event run. -/
theorem triangle_immutable_one_draw_witness :
    init_wgpu 800 600 capsSample = some (gfx800, [GpuCall.configure cfg800])
      ∧ (TriangleOk gfx800
          ∧ (runEvents state1024
              [LoopEvent.Resized 640 480]).1.gfx.vertex_buffer
              = state1024.gfx.vertex_buffer
          ∧ (runEvents state1024
              [LoopEvent.Resized 640 480]).1.gfx.vertex_count
              = state1024.gfx.vertex_count
          ∧ ((gfx1024.render none).2.1).countP GpuCall.isDraw = 1
          ∧ GpuCall.draw 0 gfx1024.vertex_count 0 1 ∈ (gfx1024.render none).2.1) :=
  ⟨rfl,
    triangle_immutable_one_draw 800 600 capsSample gfx800
      [GpuCall.configure cfg800] rfl state1024 [LoopEvent.Resized 640 480] gfx1024⟩

/-- C9: the stored surface size is always at least 1×1 — the initial
configuration floors each window dimension to a minimum of 1, a resize
with any arguments preserves the bound, a render with any outcome
preserves it, and so does any run of dispatched events. -/
theorem surface_size_at_least_one (iw ih : Nat) (caps : SurfaceCapabilities)
    (g : Gfx) (tr : List GpuCall) (hinit : init_wgpu iw ih caps = some (g, tr))
    (g2 : Gfx) (hg2 : g2.sizeOk) (w h : Nat) (o : Option SurfaceError)
    (s : LoopState) (hs : s.gfx.sizeOk) (es : List LoopEvent) :
    (g.config.width = max iw 1 ∧ g.config.height = max ih 1 ∧ g.sizeOk)
      ∧ (g2.resize w h).1.sizeOk
      ∧ (g2.render o).1.sizeOk
      ∧ (runEvents s es).1.gfx.sizeOk := by
  have hcfg : g.config.width = max iw 1 ∧ g.config.height = max ih 1 := by
    unfold init_wgpu at hinit
    cases hf : selectSurfaceFormat caps.formats with
    | none => rw [hf] at hinit; exact absurd hinit (by simp)
    | some format =>
      cases ha : caps.alpha_modes.head? with
      | none => rw [hf, ha] at hinit; exact absurd hinit (by simp)
      | some alpha =>
        rw [hf, ha] at hinit
        simp only [Option.some.injEq, Prod.mk.injEq] at hinit
        obtain ⟨hg, _⟩ := hinit
        rw [← hg]
        exact ⟨rfl, rfl⟩
  refine ⟨⟨hcfg.1, hcfg.2, ?_, ?_⟩, resize_sizeOk g2 w h hg2, ?_, runEvents_sizeOk es s hs⟩
  · rw [hcfg.1]; exact Nat.le_max_right iw 1
  · rw [hcfg.2]; exact Nat.le_max_right ih 1
  · cases o <;> exact hg2

/-- C9 witness: the size-invariant theorem applied to a concrete
construction, concrete resize/render arguments and a concrete event
run. -/
theorem surface_size_at_least_one_witness :
    init_wgpu 800 600 capsSample = some (gfx800, [GpuCall.configure cfg800])
      ∧ gfx1024.sizeOk
      ∧ state1024.gfx.sizeOk
      ∧ ((gfx800.config.width = max 800 1 ∧ gfx800.config.height = max 600 1
            ∧ gfx800.sizeOk)
        ∧ (gfx1024.resize 0 0).1.sizeOk
        ∧ (gfx1024.render (some SurfaceError.Lost)).1.sizeOk
        ∧ (runEvents state1024 [LoopEvent.Resized 0 0]).1.gfx.sizeOk) :=
  ⟨rfl, by decide, by decide,
    surface_size_at_least_one 800 600 capsSample gfx800 [GpuCall.configure cfg800]
      rfl gfx1024 (by decide) 0 0 (some SurfaceError.Lost) state1024 (by decide)
      [LoopEvent.Resized 0 0]⟩

end Sindri
